import Mathlib

/-! OrderManager — verification of the order-chain specification.

Shallow embedding of the OrderManager repository (TypeScript frontend under
`src/frontend`, plus components of the backend engine modelled from the
specification where the backend source is not part of the repository
snapshot).  Data types mirror
`src/frontend/src/features/order_management/types.ts` and
`src/frontend/src/features/discord_integration/types.ts`; operations mirror
the `api.ts` modules and the React components they are used from.
-/

namespace OrderManager

/-- Enum `OrderStatus` from `order_management/types.ts`:
pending, active, filled, cancelled, failed. -/
inductive OrderStatus where
  | pending
  | active
  | filled
  | cancelled
  | failed
deriving DecidableEq, Repr

/-- FILLED, CANCELLED and FAILED are the terminal statuses (spec section 3). -/
def OrderStatus.isTerminal : OrderStatus → Bool
  | .filled => true
  | .cancelled => true
  | .failed => true
  | _ => false

/-- Enum `OrderType` from `order_management/types.ts`. -/
inductive OrderType where
  | market
  | limit
  | stop
  | stop_limit
deriving DecidableEq, Repr

/-- Enum `OrderSide` from `order_management/types.ts`. -/
inductive OrderSide where
  | buy
  | sell
deriving DecidableEq, Repr

/-- Interface `CreateOrderRequest` from `order_management/types.ts`
(src/unnamed/part_002, lines 43-58).  Optional TypeScript fields become
`Option`; the JavaScript `number` fields carry no arithmetic in any claim and
are embedded as `Int`. -/
structure CreateOrderRequest where
  title : String
  description : Option String := none
  symbol : String
  quantity : Int
  order_type : OrderType
  side : OrderSide
  price : Option Int := none
  stop_price : Option Int := none
  limit_price : Option Int := none
  provider : String
  chain_id : Option String := none
  chain_type : Option String := none
  chain_sequence : Option Int := none
  parent_order_id : Option Int := none
deriving DecidableEq, Repr

/-- Interface `Order` from `order_management/types.ts` (src/unnamed/part_002,
lines 1-21). -/
structure Order where
  id : Int
  title : String
  description : Option String := none
  status : OrderStatus
  symbol : String
  quantity : Int
  order_type : OrderType
  side : OrderSide
  price : Option Int := none
  stop_price : Option Int := none
  limit_price : Option Int := none
  provider : String
  provider_order_id : Option String := none
  chain_id : Option String := none
  chain_type : Option String := none
  chain_sequence : Option Int := none
  parent_order_id : Option Int := none
  created_at : String
  updated_at : String
deriving DecidableEq, Repr

/-! ## Chain-creation request bodies (`order_management/api.ts`)

`createBracketOrder` and `createOCOOrder` each POST a JSON object whose keys
and values are written literally in the source.  The body is embedded as an
association list from JSON key to the order spec placed under that key, in
the order the keys appear in the object literal. -/

/-- Body of the POST issued by `createBracketOrder(entry, takeProfit,
stopLoss)` in `order_management/api.ts` lines 42-53: the object literal is
`entry_order: entry, take_profit: takeProfit, stop_loss: stopLoss`. -/
def createBracketOrderBody (entry takeProfit stopLoss : CreateOrderRequest) :
    List (String × CreateOrderRequest) :=
  [("entry_order", entry), ("take_profit", takeProfit), ("stop_loss", stopLoss)]

/-- Body of the POST issued by `createOCOOrder(limitOrder, stopOrder)` in
`order_management/api.ts` lines 55-64: the object literal is
`limit_order: limitOrder, stop_order: stopOrder`. -/
def createOCOOrderBody (limitOrder stopOrder : CreateOrderRequest) :
    List (String × CreateOrderRequest) :=
  [("limit_order", limitOrder), ("stop_order", stopOrder)]

/-- A fixed concrete order spec used to instantiate counterexamples and
witnesses. -/
def sampleSpec : CreateOrderRequest :=
  { title := "t", symbol := "AAPL", quantity := 10,
    order_type := OrderType.market, side := OrderSide.buy,
    provider := "alpaca" }

/-! ## Transition Engine (spec section 4.2)

The backend engine source is not part of the repository snapshot (only the
frontend, documentation and `requirements.txt` are), so the engine is
modelled from the specification. -/

/-- Edge condition types from the `OrderEdge` interface in
`order_management/types.ts` and spec section 3. -/
inductive ConditionType where
  | on_fill
  | on_cancel
  | on_failure
deriving DecidableEq, Repr

/-- Interface `OrderEdge` from `order_management/types.ts`, restricted to the fields the
engine reads (`condition_data` carries no data relevant to any claim). -/
structure OrderEdge where
  from_order_id : Nat
  to_order_id : Nat
  condition_type : ConditionType
deriving DecidableEq, Repr

/-- An order as the engine sees it: identity and current status.  Modelled
from the spec: only `id` and `status` of the stored order participate in
`applyStatus`. -/
structure EngineOrder where
  id : Nat
  status : OrderStatus
deriving DecidableEq, Repr

/-- The Order Store as the engine sees it.  Modelled from the spec: a durable
record of Order and OrderEdge entities (spec section 2). -/
structure Store where
  orders : List EngineOrder
  edges : List OrderEdge
deriving DecidableEq, Repr

/-- Venue Adapter calls emitted by edge actions (spec section 6):
submit a dependent order, or cancel one. -/
inductive VenueAction where
  | submit (orderId : Nat)
  | cancel (orderId : Nat)
deriving DecidableEq, Repr

/-- Status of the first order with the given id in a list of order records. -/
def lookupStatus : List EngineOrder → Nat → Option OrderStatus
  | [], _ => none
  | o :: rest, oid => if o.id == oid then some o.status else lookupStatus rest oid

/-- Overwrite the status of every order record with the given id. -/
def setStatusList (l : List EngineOrder) (oid : Nat) (st : OrderStatus) :
    List EngineOrder :=
  l.map (fun o => if o.id == oid then { o with status := st } else o)

/-- Current status of an order in the store, if present. -/
def Store.statusOf (s : Store) (oid : Nat) : Option OrderStatus :=
  lookupStatus s.orders oid

/-- Overwrite the status of order `oid` in the store. -/
def Store.setStatus (s : Store) (oid : Nat) (st : OrderStatus) : Store :=
  { s with orders := setStatusList s.orders oid st }

/-- Modelled from the spec: the per-order state machine of section 4.2 —
PENDING to ACTIVE, ACTIVE to FILLED or CANCELLED, and any non-terminal to
FAILED; a reported status that is not one of these forward steps is
stale/duplicate and is ignored. -/
def stepAllowed : OrderStatus → OrderStatus → Bool
  | .pending, .active => true
  | .pending, .failed => true
  | .active, .filled => true
  | .active, .cancelled => true
  | .active, .failed => true
  | _, _ => false

/-- Modelled from the spec (section 4.2, step 2): the action taken for one
outgoing edge once the source order `src` has committed new status `st`.
Returns the updated store and the venue calls issued for this edge.
`on_fill` with FILLED activates a PENDING target, cancels a non-terminal
target that is not the fill source; `on_cancel` with CANCELLED cancels a
PENDING/ACTIVE target; the spec assigns no action to `on_failure` edges. -/
def applyEdge (src : Nat) (st : OrderStatus) (s : Store) (e : OrderEdge) :
    Store × List VenueAction :=
  if e.from_order_id == src then
    match e.condition_type, st with
    | ConditionType.on_fill, OrderStatus.filled =>
        match s.statusOf e.to_order_id with
        | some OrderStatus.pending =>
            (s.setStatus e.to_order_id OrderStatus.active,
             [VenueAction.submit e.to_order_id])
        | some cur =>
            if cur.isTerminal = false ∧ e.to_order_id ≠ src then
              (s.setStatus e.to_order_id OrderStatus.cancelled,
               [VenueAction.cancel e.to_order_id])
            else (s, [])
        | none => (s, [])
    | ConditionType.on_cancel, OrderStatus.cancelled =>
        match s.statusOf e.to_order_id with
        | some OrderStatus.pending =>
            (s.setStatus e.to_order_id OrderStatus.cancelled,
             [VenueAction.cancel e.to_order_id])
        | some OrderStatus.active =>
            (s.setStatus e.to_order_id OrderStatus.cancelled,
             [VenueAction.cancel e.to_order_id])
        | _ => (s, [])
    | _, _ => (s, [])
  else (s, [])

/-- Evaluate all edges in order, threading the store and accumulating venue
actions. -/
def applyEdges (src : Nat) (st : OrderStatus) (s : Store) :
    List OrderEdge → Store × List VenueAction
  | [] => (s, [])
  | e :: es =>
      let r := applyEdge src st s e
      let rest := applyEdges src st r.1 es
      (rest.1, r.2 ++ rest.2)

/-- Modelled from the spec: `applyStatus(orderId, reportedStatus)` of section
4.2.  No-op if the order is unknown, already terminal, or the report is not
forward progress; otherwise commit the transition and evaluate the outgoing
edges.  Returns the resulting store and the venue calls issued. -/
def applyStatus (s : Store) (oid : Nat) (st : OrderStatus) :
    Store × List VenueAction :=
  match s.statusOf oid with
  | none => (s, [])
  | some cur =>
      if cur.isTerminal then (s, [])
      else if stepAllowed cur st then
        applyEdges oid st (s.setStatus oid st) s.edges
      else (s, [])

/-- The two-legged OCO store of the spec's test property (section 8): orders
A = 1 and B = 2, both ACTIVE after submission, with mutual on-fill cancel
edges. -/
def ocoStore : Store :=
  { orders := [⟨1, OrderStatus.active⟩, ⟨2, OrderStatus.active⟩],
    edges := [⟨1, 2, ConditionType.on_fill⟩, ⟨2, 1, ConditionType.on_fill⟩] }

/-! ## Chain Builder (spec section 4.1)

The backend Chain Builder source is not part of the repository snapshot, so
it is modelled from the specification. -/

/-- Error taxonomy of chain creation (spec section 7), restricted to the two
outcomes the Chain Builder can produce. -/
inductive ChainError where
  | validationError
  | submissionError
deriving DecidableEq, Repr

/-- Smallest id strictly greater than every id in the store. -/
def Store.freshId (s : Store) : Nat :=
  (s.orders.map (fun o => o.id)).foldr max 0 + 1

/-- Modelled from the spec: `createBracket` of section 4.1 at the request
level.  A bracket request must carry exactly 3 order specs (entry,
take-profit, stop-loss); wrong cardinality fails with ValidationError and
persists nothing.  On success the three orders are persisted together, the
entry is submitted (ACTIVE) and the exit legs stay PENDING, with on-fill
edges entry to TP, entry to SL, and mutual on-fill cancel edges TP/SL
(spec sections 3 and 8). -/
def createBracketChain (s : Store) (specs : List CreateOrderRequest) :
    Except ChainError (Store × List VenueAction) :=
  if specs.length = 3 then
    let entryId := s.freshId
    let tpId := entryId + 1
    let slId := entryId + 2
    Except.ok
      ({ orders := s.orders ++
          [⟨entryId, OrderStatus.active⟩, ⟨tpId, OrderStatus.pending⟩,
           ⟨slId, OrderStatus.pending⟩],
         edges := s.edges ++
          [⟨entryId, tpId, ConditionType.on_fill⟩,
           ⟨entryId, slId, ConditionType.on_fill⟩,
           ⟨tpId, slId, ConditionType.on_fill⟩,
           ⟨slId, tpId, ConditionType.on_fill⟩] },
       [VenueAction.submit entryId])
  else Except.error ChainError.validationError

/-- Modelled from the spec: `createOCO` of section 4.1 at the request level.
An OCO request must carry exactly 2 order specs; wrong cardinality fails
with ValidationError and persists nothing.  On success both legs are
persisted and submitted (ACTIVE) with mutual on-fill cancel edges. -/
def createOCOChain (s : Store) (specs : List CreateOrderRequest) :
    Except ChainError (Store × List VenueAction) :=
  if specs.length = 2 then
    let aId := s.freshId
    let bId := aId + 1
    Except.ok
      ({ orders := s.orders ++
          [⟨aId, OrderStatus.active⟩, ⟨bId, OrderStatus.active⟩],
         edges := s.edges ++
          [⟨aId, bId, ConditionType.on_fill⟩,
           ⟨bId, aId, ConditionType.on_fill⟩] },
       [VenueAction.submit aId, VenueAction.submit bId])
  else Except.error ChainError.validationError

/-- The store left behind by a bracket-creation request: the new store on
success, the untouched input store on failure. -/
def persistedAfterBracket (s : Store) (specs : List CreateOrderRequest) : Store :=
  match createBracketChain s specs with
  | Except.ok r => r.1
  | Except.error _ => s

/-- The store left behind by an OCO-creation request: the new store on
success, the untouched input store on failure. -/
def persistedAfterOCO (s : Store) (specs : List CreateOrderRequest) : Store :=
  match createOCOChain s specs with
  | Except.ok r => r.1
  | Except.error _ => s

/-! ## Webhook subscriptions (`discord_integration/types.ts`) -/

/-- Enum `WebhookEvent` from `discord_integration/types.ts`
(src/unnamed/part_007): exactly five constructors. -/
inductive WebhookEvent where
  | order_created
  | order_updated
  | order_cancelled
  | order_filled
  | order_failed
deriving DecidableEq, Repr

/-- The string value each `WebhookEvent` member carries in the TypeScript
enum. -/
def WebhookEvent.toValue : WebhookEvent → String
  | .order_created => "order_created"
  | .order_updated => "order_updated"
  | .order_cancelled => "order_cancelled"
  | .order_filled => "order_filled"
  | .order_failed => "order_failed"

/-- All five webhook event types, in declaration order. -/
def allWebhookEvents : List WebhookEvent :=
  [WebhookEvent.order_created, WebhookEvent.order_updated,
   WebhookEvent.order_cancelled, WebhookEvent.order_filled,
   WebhookEvent.order_failed]

/-- Interface `WebhookConfig` from `discord_integration/types.ts`. -/
structure WebhookConfig where
  id : Nat
  name : String
  url : String
  events : List WebhookEvent
  is_active : Bool
  created_at : String
  updated_at : String
deriving DecidableEq, Repr

/-- The field names of the `WebhookConfig` interface, in source order. -/
def webhookConfigFields : List String :=
  ["id", "name", "url", "events", "is_active", "created_at", "updated_at"]

/-- The field names the spec sentence assigns to a webhook subscription
(section 6).  Written from the spec's words, to be compared with
`webhookConfigFields`. -/
def specSubscriptionFields : List String :=
  ["id", "url", "event_set", "active"]

/-- Interface `CreateWebhookRequest` from `discord_integration/types.ts`. -/
structure CreateWebhookRequest where
  name : String
  url : String
  events : List WebhookEvent
deriving DecidableEq, Repr

/-- Interface `UpdateWebhookRequest` from `discord_integration/types.ts`: all
four fields optional. -/
structure UpdateWebhookRequest where
  name : Option String := none
  url : Option String := none
  events : Option (List WebhookEvent) := none
  is_active : Option Bool := none
deriving DecidableEq, Repr

/-! ## Notification Dispatcher (spec section 4.4)

The backend dispatcher source is not part of the repository snapshot, so it
is modelled from the specification, over the repository's subscription
record `WebhookConfig`. -/

/-- One queued webhook delivery: which subscription, which event. -/
structure DeliveryTask where
  subscriptionId : Nat
  event : WebhookEvent
deriving DecidableEq, Repr

/-- Modelled from the spec: on a committed transition with event type `ev`,
the dispatcher enqueues one delivery task per active subscription whose
event set contains `ev` (spec section 4.4). -/
def enqueueTasks (subs : List WebhookConfig) (ev : WebhookEvent) :
    List DeliveryTask :=
  (subs.filter (fun c => c.is_active && c.events.contains ev)).map
    (fun c => ⟨c.id, ev⟩)

/-! ## Order list action guards
(`order_management/components/OrderList/OrderList.tsx`) -/

/-- The `disabled` prop of the cancel button in `OrderList.tsx` lines 80-86:
`order.status !== OrderStatus.ACTIVE`. -/
def cancelButtonDisabled (o : Order) : Bool :=
  !(o.status == OrderStatus.active)

/-- The `disabled` prop of the delete button in `OrderList.tsx` lines 87-93:
`order.status === OrderStatus.ACTIVE`. -/
def deleteButtonDisabled (o : Order) : Bool :=
  o.status == OrderStatus.active

/-- Status of an order after the user presses its cancel button: the click
only reaches `handleCancelOrder` when the button is enabled, and the cancel
endpoint performs the ACTIVE-to-CANCELLED step of the state machine (spec
section 4.2). -/
def userCancelOutcome (o : Order) : OrderStatus :=
  if cancelButtonDisabled o then o.status else OrderStatus.cancelled

/-- Whether the order list can issue a delete request for this order: the
click only reaches `handleDeleteOrder` when the delete button is enabled. -/
def deleteRequestPossible (o : Order) : Bool :=
  !(deleteButtonDisabled o)

/-! ## Order-creation form
(`CreateOrderForm` in the `OrderList.tsx` source file, lines 257-286) -/

/-- Whether the Limit Price input is rendered: the enclosing block requires
`order_type !== MARKET`, the field itself `order_type === LIMIT ||
order_type === STOP_LIMIT`. -/
def limitPriceRendered (ot : OrderType) : Bool :=
  !(ot == OrderType.market) &&
    (ot == OrderType.limit || ot == OrderType.stop_limit)

/-- Whether the Stop Price input is rendered: the enclosing block requires
`order_type !== MARKET`, the field itself `order_type === STOP ||
order_type === STOP_LIMIT`. -/
def stopPriceRendered (ot : OrderType) : Bool :=
  !(ot == OrderType.market) &&
    (ot == OrderType.stop || ot == OrderType.stop_limit)

/-- The initial `formData` state of `CreateOrderForm`. -/
def initialOrderForm : CreateOrderRequest :=
  { title := "", symbol := "", quantity := 0,
    order_type := OrderType.market, side := OrderSide.buy,
    provider := "alpaca" }

/-- One user interaction with the order-creation form: each constructor is a
change event of one rendered input (`handleChange` merges the named field
into `formData`). -/
inductive FormEvent where
  | setTitle (v : String)
  | setSymbol (v : String)
  | setQuantity (v : Int)
  | setOrderType (v : OrderType)
  | setSide (v : OrderSide)
  | setProvider (v : String)
  | setLimitPrice (v : Int)
  | setStopPrice (v : Int)
deriving DecidableEq, Repr

/-- State transition of `formData` under one form event.  `handleChange`
overwrites exactly the named field; the price inputs only exist in the DOM
while rendered, so their change events can only occur then — an event on an
absent input leaves the state unchanged.  Nothing ever clears a price field:
switching `order_type` keeps previously entered prices. -/
def formStep (s : CreateOrderRequest) : FormEvent → CreateOrderRequest
  | .setTitle v => { s with title := v }
  | .setSymbol v => { s with symbol := v }
  | .setQuantity v => { s with quantity := v }
  | .setOrderType v => { s with order_type := v }
  | .setSide v => { s with side := v }
  | .setProvider v => { s with provider := v }
  | .setLimitPrice v =>
      if limitPriceRendered s.order_type then { s with limit_price := some v }
      else s
  | .setStopPrice v =>
      if stopPriceRendered s.order_type then { s with stop_price := some v }
      else s

/-- The `formData` submitted after a sequence of form interactions
(`handleSubmit` sends `formData` as-is via `createOrder`). -/
def runOrderForm (evs : List FormEvent) : CreateOrderRequest :=
  evs.foldl formStep initialOrderForm

/-! ## Webhook-creation form (`CreateWebhookForm`, src/unnamed/part_006) -/

/-- Local state of `CreateWebhookForm`: the `formData` record and the `error`
message. -/
structure WebhookFormState where
  formData : CreateWebhookRequest
  error : Option String
deriving DecidableEq, Repr

/-- Function `handleSubmit` of `CreateWebhookForm` (src/unnamed/part_006, lines
42-49): with an empty `events` list it sets a local error and returns
without calling the mutation; otherwise it issues `createWebhook` with
`formData`.  Returns the request sent (if any) and the resulting local
state. -/
def handleWebhookSubmit (s : WebhookFormState) :
    Option CreateWebhookRequest × WebhookFormState :=
  if s.formData.events.length = 0 then
    (none, { s with error := some "Please select at least one event" })
  else
    (some s.formData, s)

/-! ## Webhook active toggle (`WebhookList.tsx` lines 28-55) -/

/-- The body `toggleWebhookMutation` passes to `webhookApi.updateWebhook`:
the object literal contains only `is_active`, set to `!webhook.is_active`. -/
def toggleWebhookBody (w : WebhookConfig) : UpdateWebhookRequest :=
  { is_active := some (!w.is_active) }

/-- Modelled from the spec: applying a partial `UpdateWebhookRequest` to a
stored subscription — each optional field overwrites the stored value when
present and leaves it unchanged when absent (the backend update handler is
not part of the repository snapshot; this is the semantics of the
all-optional `UpdateWebhookRequest` interface). -/
def applyWebhookUpdate (w : WebhookConfig) (u : UpdateWebhookRequest) :
    WebhookConfig :=
  { w with
    name := u.name.getD w.name,
    url := u.url.getD w.url,
    events := u.events.getD w.events,
    is_active := u.is_active.getD w.is_active }

/-- A concrete order with the given status, used by witnesses. -/
def sampleOrder (st : OrderStatus) : Order :=
  { id := 1, title := "t", status := st, symbol := "AAPL", quantity := 10,
    order_type := OrderType.market, side := OrderSide.buy,
    provider := "alpaca", created_at := "", updated_at := "" }

/-! ## Theorems -/

/-- C1: For every bracket-chain creation, the request consumed by the system
does NOT have the field `entry` and for every OCO-chain creation it does NOT
have the fields `order_a`, `order_b`: `createBracketOrder` sends
`entry_order` and `createOCOOrder` sends `limit_order`/`stop_order`.
Concrete counterexample to the claimed field names. -/
theorem C1_counterexample_field_names :
    (createBracketOrderBody sampleSpec sampleSpec sampleSpec).map Prod.fst ≠
      ["entry", "take_profit", "stop_loss"] ∧
    (createOCOOrderBody sampleSpec sampleSpec).map Prod.fst ≠
      ["order_a", "order_b"] := by
  decide

/-- C1 (amended): every bracket-chain creation request has exactly the fields
`entry_order`, `take_profit`, `stop_loss` and every OCO-chain creation
request has exactly the fields `limit_order`, `stop_order`, in that order,
each holding the corresponding order spec unchanged. -/
theorem C1_chain_request_shapes (e tp sl a b : CreateOrderRequest) :
    (createBracketOrderBody e tp sl).map Prod.fst =
      ["entry_order", "take_profit", "stop_loss"] ∧
    (createBracketOrderBody e tp sl).map Prod.snd = [e, tp, sl] ∧
    (createOCOOrderBody a b).map Prod.fst = ["limit_order", "stop_order"] ∧
    (createOCOOrderBody a b).map Prod.snd = [a, b] := by
  exact ⟨rfl, rfl, rfl, rfl⟩

/-- C3: a bracket-creation request with a number of order specs other than 3,
or an OCO-creation request with a number other than 2, fails with
ValidationError, and the persisted store is the unchanged input store —
no order or edge of the chain is persisted.  (The builder itself is
modelled from the spec; only its frontend callers are in the snapshot.) -/
theorem C3_wrong_cardinality_rejected (s : Store)
    (specs : List CreateOrderRequest) :
    (specs.length ≠ 3 →
      createBracketChain s specs = Except.error ChainError.validationError ∧
      persistedAfterBracket s specs = s) ∧
    (specs.length ≠ 2 →
      createOCOChain s specs = Except.error ChainError.validationError ∧
      persistedAfterOCO s specs = s) := by
  constructor
  · intro h
    have hb : createBracketChain s specs = Except.error ChainError.validationError := by
      unfold createBracketChain
      rw [if_neg h]
    exact ⟨hb, by unfold persistedAfterBracket; rw [hb]⟩
  · intro h
    have ho : createOCOChain s specs = Except.error ChainError.validationError := by
      unfold createOCOChain
      rw [if_neg h]
    exact ⟨ho, by unfold persistedAfterOCO; rw [ho]⟩

/-- C3 witness: a one-spec request is rejected by both builders and the store
(here the empty store) is untouched. -/
theorem C3_wrong_cardinality_witness :
    createBracketChain ⟨[], []⟩ [sampleSpec] =
      Except.error ChainError.validationError ∧
    createOCOChain ⟨[], []⟩ [sampleSpec] =
      Except.error ChainError.validationError := by
  exact ⟨((C3_wrong_cardinality_rejected ⟨[], []⟩ [sampleSpec]).1 (by decide)).1,
         ((C3_wrong_cardinality_rejected ⟨[], []⟩ [sampleSpec]).2 (by decide)).1⟩

/-- C4: the cancel button is disabled for every order whose status is
PENDING, FILLED, CANCELLED or FAILED; pressing cancel either changes nothing
or takes an ACTIVE order to CANCELLED, and never moves an order out of a
terminal status. -/
theorem C4_cancel_only_when_active (o : Order) :
    (o.status = OrderStatus.pending ∨ o.status = OrderStatus.filled ∨
     o.status = OrderStatus.cancelled ∨ o.status = OrderStatus.failed →
      cancelButtonDisabled o = true) ∧
    (userCancelOutcome o = o.status ∨
      (o.status = OrderStatus.active ∧
       userCancelOutcome o = OrderStatus.cancelled)) ∧
    (o.status.isTerminal = true → userCancelOutcome o = o.status) := by
  cases h : o.status <;>
    simp_all [cancelButtonDisabled, userCancelOutcome, OrderStatus.isTerminal]

/-- C4 witness: for a concrete PENDING order the cancel button is disabled,
and for a concrete FILLED order the user cancel action leaves the status
unchanged. -/
theorem C4_cancel_only_when_active_witness :
    cancelButtonDisabled (sampleOrder OrderStatus.pending) = true ∧
    userCancelOutcome (sampleOrder OrderStatus.filled) =
      (sampleOrder OrderStatus.filled).status := by
  exact ⟨(C4_cancel_only_when_active (sampleOrder OrderStatus.pending)).1
           (Or.inl rfl),
         (C4_cancel_only_when_active (sampleOrder OrderStatus.filled)).2.2 rfl⟩

/-- C5: the delete button is disabled exactly when the order's status is
ACTIVE, so the order list can issue a delete request only for a non-ACTIVE
order. -/
theorem C5_delete_guard (o : Order) :
    (deleteButtonDisabled o = true ↔ o.status = OrderStatus.active) ∧
    (deleteRequestPossible o = true → o.status ≠ OrderStatus.active) := by
  cases h : o.status <;>
    simp_all [deleteButtonDisabled, deleteRequestPossible]

/-- C5 witness: a concrete PENDING order can be deleted and is not ACTIVE; a
concrete ACTIVE order has its delete button disabled. -/
theorem C5_delete_guard_witness :
    (sampleOrder OrderStatus.pending).status ≠ OrderStatus.active ∧
    deleteButtonDisabled (sampleOrder OrderStatus.active) = true := by
  exact ⟨(C5_delete_guard (sampleOrder OrderStatus.pending)).2 (by decide),
         (C5_delete_guard (sampleOrder OrderStatus.active)).1.mpr rfl⟩

/-- C7: the subscription record does NOT consist only of an id, a url, an
active flag and an event set: the `WebhookConfig` interface also has a
`name` field (and timestamps), so the claimed field list is wrong. -/
theorem C7_counterexample_subscription_fields :
    webhookConfigFields ≠ specSubscriptionFields ∧
    "name" ∈ webhookConfigFields ∧ "name" ∉ specSubscriptionFields := by
  decide

/-- C7 (amended): every webhook subscription consists of an id, a name, a
url, an events list, an is_active flag and created_at/updated_at
timestamps; its events are drawn from exactly the five event types
order_created, order_updated, order_cancelled, order_filled, order_failed,
and no other event type is representable in a subscription's event set. -/
theorem C7_subscription_shape :
    webhookConfigFields =
      ["id", "name", "url", "events", "is_active", "created_at",
       "updated_at"] ∧
    (∀ e : WebhookEvent, e ∈ allWebhookEvents) ∧
    allWebhookEvents.map WebhookEvent.toValue =
      ["order_created", "order_updated", "order_cancelled", "order_filled",
       "order_failed"] ∧
    (∀ c : WebhookConfig,
      c.events.all (fun e => allWebhookEvents.contains e) = true) := by
  refine ⟨rfl, ?_, rfl, ?_⟩
  · intro e
    cases e <;> simp [allWebhookEvents]
  · intro c
    exact List.all_eq_true.mpr (fun e _ => by cases e <;> decide)

/-- C8 counterexample: entering a limit price and then switching the order
type back to market leaves the stale `limit_price` in `formData`, so the
submitted market order carries a price field — the claim that a market
order carries neither price field fails on this interaction sequence. -/
theorem C8_counterexample_stale_limit_price :
    (runOrderForm [FormEvent.setOrderType OrderType.limit,
                   FormEvent.setLimitPrice 100,
                   FormEvent.setOrderType OrderType.market]).order_type =
      OrderType.market ∧
    (runOrderForm [FormEvent.setOrderType OrderType.limit,
                   FormEvent.setLimitPrice 100,
                   FormEvent.setOrderType OrderType.market]).limit_price =
      some 100 := by
  decide

/-- C8 (amended): the generic `price` field is never populated by any
interaction with the current order-creation form; the limit-price input is
editable exactly when the order type is limit or stop_limit and the
stop-price input exactly when it is stop or stop_limit (a market order
offers neither input); but a price entered earlier is retained when the
order type later changes, so a submitted market order may still carry a
previously entered type-specific price field. -/
theorem C8_price_fields (evs : List FormEvent) (s : CreateOrderRequest)
    (v : Int) :
    (runOrderForm evs).price = none ∧
    (limitPriceRendered s.order_type = false →
      formStep s (FormEvent.setLimitPrice v) = s) ∧
    (limitPriceRendered s.order_type = true →
      (formStep s (FormEvent.setLimitPrice v)).limit_price = some v) ∧
    (stopPriceRendered s.order_type = false →
      formStep s (FormEvent.setStopPrice v) = s) ∧
    (stopPriceRendered s.order_type = true →
      (formStep s (FormEvent.setStopPrice v)).stop_price = some v) ∧
    (limitPriceRendered OrderType.market = false ∧
     limitPriceRendered OrderType.limit = true ∧
     limitPriceRendered OrderType.stop = false ∧
     limitPriceRendered OrderType.stop_limit = true) ∧
    (stopPriceRendered OrderType.market = false ∧
     stopPriceRendered OrderType.limit = false ∧
     stopPriceRendered OrderType.stop = true ∧
     stopPriceRendered OrderType.stop_limit = true) := by
  refine ⟨?_, ?_, ?_, ?_, ?_, by decide, by decide⟩
  · have key : ∀ (l : List FormEvent) (t : CreateOrderRequest),
        (l.foldl formStep t).price = t.price := by
      intro l
      induction l with
      | nil => intro t; rfl
      | cons e es ih =>
          intro t
          have hstep : (formStep t e).price = t.price := by
            cases e <;> simp [formStep] <;> split <;> rfl
          rw [List.foldl_cons, ih, hstep]
    exact key evs initialOrderForm
  · intro h
    simp [formStep, h]
  · intro h
    simp [formStep, h]
  · intro h
    simp [formStep, h]
  · intro h
    simp [formStep, h]

/-- C8 witness: with the form in its initial (market) state a limit-price
change event is ignored, and with the type set to limit it stores the
entered value. -/
theorem C8_price_fields_witness :
    formStep initialOrderForm (FormEvent.setLimitPrice 5) =
      initialOrderForm ∧
    (formStep { initialOrderForm with order_type := OrderType.limit }
        (FormEvent.setLimitPrice 5)).limit_price = some 5 ∧
    formStep initialOrderForm (FormEvent.setStopPrice 5) =
      initialOrderForm ∧
    (formStep { initialOrderForm with order_type := OrderType.stop }
        (FormEvent.setStopPrice 5)).stop_price = some 5 := by
  exact ⟨(C8_price_fields [] initialOrderForm 5).2.1 (by decide),
         (C8_price_fields []
            { initialOrderForm with order_type := OrderType.limit } 5).2.2.1
           (by decide),
         (C8_price_fields [] initialOrderForm 5).2.2.2.1 (by decide),
         (C8_price_fields []
            { initialOrderForm with order_type := OrderType.stop } 5).2.2.2.2.1
           (by decide)⟩

/-- C9: submitting the webhook-creation form with an empty events list issues
no createWebhook request and leaves `formData` unchanged, only setting the
local error message; and every request the submit handler actually issues
carries at least one event type. -/
theorem C9_empty_events_no_request (s : WebhookFormState) :
    (s.formData.events.length = 0 →
      handleWebhookSubmit s =
        (none, { s with error := some "Please select at least one event" })) ∧
    ((handleWebhookSubmit s).2.formData = s.formData) ∧
    (∀ req, (handleWebhookSubmit s).1 = some req →
      req = s.formData ∧ req.events.length ≠ 0) := by
  refine ⟨?_, ?_, ?_⟩
  · intro h
    unfold handleWebhookSubmit
    rw [if_pos h]
  · unfold handleWebhookSubmit
    split <;> rfl
  · intro req h
    unfold handleWebhookSubmit at h
    by_cases hlen : s.formData.events.length = 0
    · rw [if_pos hlen] at h
      exact absurd h (by simp)
    · rw [if_neg hlen] at h
      simp only [Option.some.injEq] at h
      exact ⟨h.symm, h ▸ hlen⟩

/-- C9 witness: a concrete form state with no selected events submits
nothing and keeps its form data; a concrete state with one selected event
issues a request with a nonempty event list. -/
theorem C9_empty_events_no_request_witness :
    handleWebhookSubmit ⟨⟨"n", "u", []⟩, none⟩ =
      (none, ⟨⟨"n", "u", []⟩, some "Please select at least one event"⟩) ∧
    (⟨"n", "u", [WebhookEvent.order_filled]⟩ : CreateWebhookRequest) =
      (⟨⟨"n", "u", [WebhookEvent.order_filled]⟩, none⟩ :
        WebhookFormState).formData ∧
    ([WebhookEvent.order_filled] : List WebhookEvent).length ≠ 0 := by
  refine ⟨(C9_empty_events_no_request ⟨⟨"n", "u", []⟩, none⟩).1 rfl, ?_, ?_⟩
  · exact ((C9_empty_events_no_request
      ⟨⟨"n", "u", [WebhookEvent.order_filled]⟩, none⟩).2.2 _ rfl).1
  · exact ((C9_empty_events_no_request
      ⟨⟨"n", "u", [WebhookEvent.order_filled]⟩, none⟩).2.2 _ rfl).2

/-- C10: the toggle issues an update request whose body carries only
`is_active`, set to the negation of the current value — `name`, `url` and
`events` are absent — and applying the partial update leaves the
subscription's name, url and events unchanged while flipping is_active. -/
theorem C10_toggle_frame (w : WebhookConfig) :
    (toggleWebhookBody w).name = none ∧
    (toggleWebhookBody w).url = none ∧
    (toggleWebhookBody w).events = none ∧
    (toggleWebhookBody w).is_active = some (!w.is_active) ∧
    (applyWebhookUpdate w (toggleWebhookBody w)).name = w.name ∧
    (applyWebhookUpdate w (toggleWebhookBody w)).url = w.url ∧
    (applyWebhookUpdate w (toggleWebhookBody w)).events = w.events ∧
    (applyWebhookUpdate w (toggleWebhookBody w)).is_active = !w.is_active := by
  exact ⟨rfl, rfl, rfl, rfl, rfl, rfl, rfl, rfl⟩

/-! ### Helper lemmas for the dispatcher and the transition engine -/

theorem enqueueTasks_countP (l : List WebhookConfig) (ev : WebhookEvent)
    (i : Nat) :
    (enqueueTasks l ev).countP (fun t => t.subscriptionId == i) =
      l.countP (fun c => (c.is_active && c.events.contains ev) && c.id == i) := by
  induction l with
  | nil => rfl
  | cons a l ih =>
      cases h : (a.is_active && a.events.contains ev) with
      | true =>
          simp only [enqueueTasks, List.filter_cons, h, if_true, List.map_cons,
            List.countP_cons] at ih ⊢
          simpa using ih
      | false =>
          simp only [enqueueTasks, List.filter_cons, h, List.countP_cons,
            Bool.false_eq_true, if_false] at ih ⊢
          simpa using ih

theorem countP_id_notin (l : List WebhookConfig) (i : Nat)
    (h : ∀ x ∈ l, x.id ≠ i) (p : WebhookConfig → Bool) :
    l.countP (fun c => p c && c.id == i) = 0 := by
  apply List.countP_eq_zero.mpr
  intro a ha
  simp [h a ha]

theorem lookupStatus_set_self (l : List EngineOrder) (oid : Nat)
    (st : OrderStatus) :
    lookupStatus (setStatusList l oid st) oid =
      (lookupStatus l oid).map (fun _ => st) := by
  induction l with
  | nil => rfl
  | cons o rest ih =>
      by_cases h : (o.id == oid) = true
      · simp [setStatusList, lookupStatus, h]
      · simp only [setStatusList, List.map_cons] at *
        rw [if_neg h]
        simp only [lookupStatus, h, if_false, Bool.false_eq_true]
        exact ih

theorem lookupStatus_set_ne (l : List EngineOrder) (j oid : Nat)
    (hne : j ≠ oid) (st : OrderStatus) :
    lookupStatus (setStatusList l j st) oid = lookupStatus l oid := by
  induction l with
  | nil => rfl
  | cons o rest ih =>
      simp only [setStatusList, List.map_cons] at *
      by_cases hj : (o.id == j) = true
      · have hid : o.id = j := by simpa using hj
        have hno : (o.id == oid) = false := by
          rw [hid]
          simpa using hne
        rw [if_pos hj]
        simp only [lookupStatus, hno, Bool.false_eq_true, if_false]
        exact ih
      · rw [if_neg hj]
        by_cases ho : (o.id == oid) = true
        · simp [lookupStatus, ho]
        · simp only [lookupStatus, ho, Bool.false_eq_true, if_false]
          exact ih

theorem statusOf_setStatus_self (s : Store) (oid : Nat) (st : OrderStatus)
    (cur : OrderStatus) (h : s.statusOf oid = some cur) :
    (s.setStatus oid st).statusOf oid = some st := by
  unfold Store.statusOf Store.setStatus at *
  rw [lookupStatus_set_self, h]
  rfl

theorem statusOf_setStatus_ne (s : Store) (j oid : Nat) (hne : j ≠ oid)
    (st : OrderStatus) :
    (s.setStatus j st).statusOf oid = s.statusOf oid := by
  unfold Store.statusOf Store.setStatus
  exact lookupStatus_set_ne s.orders j oid hne st

theorem applyEdge_statusOf_src (src : Nat) (st : OrderStatus) (s : Store)
    (e : OrderEdge) (h : s.statusOf src = some st)
    (hnp : st ≠ OrderStatus.pending) :
    (applyEdge src st s e).1.statusOf src = some st := by
  unfold applyEdge
  cases hfrom : (e.from_order_id == src) with
  | false => simpa [hfrom] using h
  | true =>
      simp only [hfrom, if_true]
      cases hct : e.condition_type <;> cases st <;>
        simp_all <;> try exact h
      case on_fill.filled =>
        cases hto : s.statusOf e.to_order_id with
        | none => simpa using h
        | some tgt =>
            cases tgt with
            | pending =>
                have hne : e.to_order_id ≠ src := by
                  intro heq
                  rw [heq, h] at hto
                  cases hto
                simp only
                rw [statusOf_setStatus_ne s e.to_order_id src hne]
                exact h
            | active =>
                simp only
                split
                · next hcond =>
                    rw [statusOf_setStatus_ne s e.to_order_id src hcond.2]
                    exact h
                · exact h
            | filled =>
                simp only
                split
                · next hcond => simp [OrderStatus.isTerminal] at hcond
                · exact h
            | cancelled =>
                simp only
                split
                · next hcond => simp [OrderStatus.isTerminal] at hcond
                · exact h
            | failed =>
                simp only
                split
                · next hcond => simp [OrderStatus.isTerminal] at hcond
                · exact h
      case on_cancel.cancelled =>
        cases hto : s.statusOf e.to_order_id with
        | none => simpa using h
        | some tgt =>
            cases tgt <;> simp only <;> try exact h
            case pending =>
                have hne : e.to_order_id ≠ src := by
                  intro heq
                  rw [heq, h] at hto
                  cases hto
                rw [statusOf_setStatus_ne s e.to_order_id src hne]
                exact h
            case active =>
                have hne : e.to_order_id ≠ src := by
                  intro heq
                  rw [heq, h] at hto
                  cases hto
                rw [statusOf_setStatus_ne s e.to_order_id src hne]
                exact h

theorem applyEdges_statusOf_src (src : Nat) (st : OrderStatus)
    (hnp : st ≠ OrderStatus.pending) :
    ∀ (es : List OrderEdge) (s : Store), s.statusOf src = some st →
      (applyEdges src st s es).1.statusOf src = some st := by
  intro es
  induction es with
  | nil => intro s h; exact h
  | cons e es ih =>
      intro s h
      simp only [applyEdges]
      exact ih _ (applyEdge_statusOf_src src st s e h hnp)

/-- C6: for a committed transition with event type `ev` and any subscription
in the registry (subscription ids distinct), a delivery task for that
subscription is enqueued if and only if it is active and its event set
contains `ev`, and then exactly one task is enqueued; every enqueued task
carries the transition's event type.  (Dispatcher modelled from the spec.) -/
theorem C6_delivery_task_per_subscription (subs : List WebhookConfig)
    (ev : WebhookEvent) (c : WebhookConfig) (hmem : c ∈ subs)
    (hnodup : (subs.map (fun x => x.id)).Nodup) :
    (enqueueTasks subs ev).countP (fun t => t.subscriptionId == c.id) =
      (if c.is_active = true ∧ c.events.contains ev = true then 1 else 0) ∧
    ∀ t ∈ enqueueTasks subs ev, t.event = ev := by
  constructor
  · rw [enqueueTasks_countP]
    induction subs with
    | nil => cases hmem
    | cons a l ih =>
        rw [List.countP_cons]
        rcases List.mem_cons.mp hmem with heq | hmem'
        · subst heq
          have hids : ∀ x ∈ l, x.id ≠ c.id := by
            intro x hx hxe
            have : c.id ∈ l.map (fun y => y.id) :=
              List.mem_map.mpr ⟨x, hx, hxe⟩
            exact (List.nodup_cons.mp hnodup).1 this
          rw [countP_id_notin l c.id hids]
          cases h1 : c.is_active <;> cases h2 : c.events.contains ev <;>
            simp [h1, h2]
        · have hne : a.id ≠ c.id := by
            intro hxe
            have : c.id ∈ l.map (fun y => y.id) :=
              List.mem_map.mpr ⟨c, hmem', rfl⟩
            rw [← hxe] at this
            exact (List.nodup_cons.mp hnodup).1 this
          rw [ih hmem' (List.nodup_cons.mp hnodup).2]
          simp [hne]
  · intro t ht
    rcases List.mem_map.mp ht with ⟨x, _, rfl⟩
    rfl

/-- C6 witness: in a registry of three concrete subscriptions (one active and
matching, one active whose event set excludes order_filled, one inactive but
matching), an order_filled transition enqueues exactly one task for the
matching active subscription, none for the other two, and every task carries
the order_filled event. -/
theorem C6_delivery_task_per_subscription_witness :
    (enqueueTasks
        [⟨1, "a", "u1", [WebhookEvent.order_filled], true, "", ""⟩,
         ⟨2, "b", "u2", [WebhookEvent.order_created], true, "", ""⟩,
         ⟨3, "c", "u3", [WebhookEvent.order_filled], false, "", ""⟩]
        WebhookEvent.order_filled).countP
      (fun t => t.subscriptionId == 1) = 1 ∧
    (enqueueTasks
        [⟨1, "a", "u1", [WebhookEvent.order_filled], true, "", ""⟩,
         ⟨2, "b", "u2", [WebhookEvent.order_created], true, "", ""⟩,
         ⟨3, "c", "u3", [WebhookEvent.order_filled], false, "", ""⟩]
        WebhookEvent.order_filled).countP
      (fun t => t.subscriptionId == 2) = 0 ∧
    (enqueueTasks
        [⟨1, "a", "u1", [WebhookEvent.order_filled], true, "", ""⟩,
         ⟨2, "b", "u2", [WebhookEvent.order_created], true, "", ""⟩,
         ⟨3, "c", "u3", [WebhookEvent.order_filled], false, "", ""⟩]
        WebhookEvent.order_filled).countP
      (fun t => t.subscriptionId == 3) = 0 := by
  refine ⟨?_, ?_, ?_⟩
  · have h := (C6_delivery_task_per_subscription
      [⟨1, "a", "u1", [WebhookEvent.order_filled], true, "", ""⟩,
       ⟨2, "b", "u2", [WebhookEvent.order_created], true, "", ""⟩,
       ⟨3, "c", "u3", [WebhookEvent.order_filled], false, "", ""⟩]
      WebhookEvent.order_filled
      ⟨1, "a", "u1", [WebhookEvent.order_filled], true, "", ""⟩
      (by simp) (by simp)).1
    rw [h]
    decide
  · have h := (C6_delivery_task_per_subscription
      [⟨1, "a", "u1", [WebhookEvent.order_filled], true, "", ""⟩,
       ⟨2, "b", "u2", [WebhookEvent.order_created], true, "", ""⟩,
       ⟨3, "c", "u3", [WebhookEvent.order_filled], false, "", ""⟩]
      WebhookEvent.order_filled
      ⟨2, "b", "u2", [WebhookEvent.order_created], true, "", ""⟩
      (by simp) (by simp)).1
    rw [h]
    decide
  · have h := (C6_delivery_task_per_subscription
      [⟨1, "a", "u1", [WebhookEvent.order_filled], true, "", ""⟩,
       ⟨2, "b", "u2", [WebhookEvent.order_created], true, "", ""⟩,
       ⟨3, "c", "u3", [WebhookEvent.order_filled], false, "", ""⟩]
      WebhookEvent.order_filled
      ⟨3, "c", "u3", [WebhookEvent.order_filled], false, "", ""⟩
      (by simp) (by simp)).1
    rw [h]
    decide

/-- C2: `applyStatus` is idempotent — replaying the same (orderId,
reportedStatus) report yields a final state identical to the first
application and emits no further venue actions, so each dependent edge
action fires at most once; in particular, in the OCO chain A = 1, B = 2,
A reporting FILLED cancels B exactly once (a single cancel action), and a
duplicate FILLED report for A or a late report for B changes nothing.
(Engine modelled from the spec.) -/
theorem C2_applyStatus_idempotent (s : Store) (oid : Nat) (st : OrderStatus) :
    applyStatus (applyStatus s oid st).1 oid st =
      ((applyStatus s oid st).1, []) ∧
    (applyStatus ocoStore 1 OrderStatus.filled).1.statusOf 2 =
      some OrderStatus.cancelled ∧
    (applyStatus ocoStore 1 OrderStatus.filled).2 = [VenueAction.cancel 2] ∧
    applyStatus (applyStatus ocoStore 1 OrderStatus.filled).1 1
        OrderStatus.filled =
      ((applyStatus ocoStore 1 OrderStatus.filled).1, []) ∧
    applyStatus (applyStatus ocoStore 1 OrderStatus.filled).1 2
        OrderStatus.filled =
      ((applyStatus ocoStore 1 OrderStatus.filled).1, []) ∧
    applyStatus (applyStatus ocoStore 1 OrderStatus.filled).1 2
        OrderStatus.active =
      ((applyStatus ocoStore 1 OrderStatus.filled).1, []) := by
  refine ⟨?_, by decide, by decide, by decide, by decide, by decide⟩
  cases h : s.statusOf oid with
  | none =>
      have h1 : applyStatus s oid st = (s, []) := by
        unfold applyStatus
        rw [h]
      rw [h1]
      exact h1
  | some cur =>
      by_cases hterm : cur.isTerminal = true
      · have h1 : applyStatus s oid st = (s, []) := by
          unfold applyStatus
          rw [h]
          simp [hterm]
        rw [h1]
        exact h1
      · by_cases hstep : stepAllowed cur st = true
        · have hres : applyStatus s oid st =
              applyEdges oid st (s.setStatus oid st) s.edges := by
            unfold applyStatus
            rw [h]
            simp [hterm, hstep]
          have hnp : st ≠ OrderStatus.pending := by
            intro hp
            subst hp
            cases cur <;> simp [stepAllowed] at hstep
          have hset : (s.setStatus oid st).statusOf oid = some st :=
            statusOf_setStatus_self s oid st cur h
          have h2 : ((applyEdges oid st (s.setStatus oid st)
              s.edges).1).statusOf oid = some st :=
            applyEdges_statusOf_src oid st hnp s.edges _ hset
          rw [hres]
          unfold applyStatus
          rw [h2]
          have hss : stepAllowed st st = false := by cases st <;> rfl
          by_cases hterm2 : st.isTerminal = true
          · simp [hterm2]
          · simp [hterm2, hss]
        · have h1 : applyStatus s oid st = (s, []) := by
            unfold applyStatus
            rw [h]
            simp [hterm, hstep]
          rw [h1]
          exact h1

end OrderManager
